import Mathlib

/-!
Verification development for the `bourse` limit-order-book simulation engine.

The visible Python layer of the repository is a thin facade over a native
core module (`bourse.core`) that provides `OrderBook`, `StepEnv` and
`StepEnvNumpy`.  The native core is not part of the Python sources, so the
data model and operations below are modelled from the specification
(sections 3, 4.1 and 4.2), with the Python tests used as concrete anchors.
Sides are encoded as in the repository: `bid = true`, `ask = false`.
Status codes are the repository's: new = 0, active = 1, filled = 2,
cancelled = 3, rejected = 4.
-/

namespace Bourse

/-- Modelled from the spec: `MAX_PRICE = 2³²−1`, the reserved "market buy"
price sentinel (§3, §6). -/
def MAX_PRICE : Nat := 2 ^ 32 - 1

/-- Modelled from the spec: an order record of the order arena (§3).
`side = true` is a bid, `side = false` an ask; `status` uses the numeric
codes new = 0, active = 1, filled = 2, cancelled = 3, rejected = 4. -/
structure Order where
  orderId : Nat
  side : Bool
  price : Nat
  vol : Nat
  startVol : Nat
  traderId : Nat
  arrTime : Nat
  endTime : Nat
  status : Nat
  deriving Repr, DecidableEq

/-- Modelled from the spec: a trade record
`(time, side, price, vol, active_id, passive_id)` where `side` and `price`
are the passive (resting) order's side and resting price (§3). -/
structure Trade where
  time : Nat
  side : Bool
  price : Nat
  vol : Nat
  activeId : Nat
  passiveId : Nat
  deriving Repr, DecidableEq

/-- A price level: the price paired with the FIFO queue of resting
order-ids (insertion order = time priority).  A side book is a list of
levels ordered best-first (bids: descending price, asks: ascending),
with no empty levels (§3). -/
abbrev Level : Type := Nat × List Nat

/-- Modelled from the spec: the order book (§3, §4.1).  It owns the order
arena (`orders`, one record per issued id, in id order), the two side
books, the trade log, the clock and the tick size.  `nextOrderId` is the
dense monotone id allocator. -/
structure OrderBook where
  time : Nat
  tickSize : Nat
  orders : List Order
  bids : List Level
  asks : List Level
  trades : List Trade
  nextOrderId : Nat
  deriving Repr, DecidableEq

/-- A fresh book: empty arena, empty sides, empty trade log. -/
def OrderBook.init (startTime : Nat) (tickSize : Nat := 1) : OrderBook :=
  ⟨startTime, tickSize, [], [], [], [], 0⟩

/-- Look up an order record by id in the arena. -/
def OrderBook.getOrder (b : OrderBook) (id : Nat) : Option Order :=
  b.orders.find? (fun o => o.orderId == id)

/-- Update the arena record with the given id. -/
def updateOrders (os : List Order) (id : Nat) (f : Order → Order) : List Order :=
  os.map (fun o => if o.orderId == id then f o else o)

/-- Remaining volume of the order with the given id (0 if unknown). -/
def OrderBook.orderVol (b : OrderBook) (id : Nat) : Nat :=
  match b.getOrder id with
  | some o => o.vol
  | none => 0

/-- Aggregate volume of a queue of resting order ids. -/
def OrderBook.queueVol (b : OrderBook) (q : List Nat) : Nat :=
  (q.map b.orderVol).sum

/-- Insert an id into a side book at the given price, at the tail of the
level's FIFO queue; a fresh level is created in sorted position
(`desc = true` for bids: descending prices; `false` for asks). -/
def insertIntoSide (desc : Bool) (price id : Nat) : List Level → List Level
  | [] => [(price, [id])]
  | (p, q) :: rest =>
    if p = price then
      (p, q ++ [id]) :: rest
    else if (desc && decide (price > p)) || (!desc && decide (price < p)) then
      (price, [id]) :: (p, q) :: rest
    else
      (p, q) :: insertIntoSide desc price id rest

/-- Remove an id from a side book, dropping any level left empty (§3:
a level with zero orders is removed from its side book). -/
def removeFromSide (id : Nat) (ls : List Level) : List Level :=
  (ls.map (fun pq => (pq.1, pq.2.filter (fun x => x ≠ id)))).filter
    (fun pq => ¬ pq.2.isEmpty)

/-- `bid_ask()`: best bid and ask prices, with the empty-side sentinels
`(0, MAX_PRICE)` (§3 invariants). -/
def OrderBook.bid_ask (b : OrderBook) : Nat × Nat :=
  (match b.bids with
   | [] => 0
   | pq :: _ => pq.1,
   match b.asks with
   | [] => MAX_PRICE
   | pq :: _ => pq.1)

/-- `bid_vol()`: total volume resting on the bid side. -/
def OrderBook.bid_vol (b : OrderBook) : Nat :=
  (b.bids.map (fun pq => b.queueVol pq.2)).sum

/-- `ask_vol()`: total volume resting on the ask side. -/
def OrderBook.ask_vol (b : OrderBook) : Nat :=
  (b.asks.map (fun pq => b.queueVol pq.2)).sum

/-- `best_bid_vol()`: volume at the best bid level (0 when empty). -/
def OrderBook.best_bid_vol (b : OrderBook) : Nat :=
  match b.bids with
  | [] => 0
  | pq :: _ => b.queueVol pq.2

/-- `best_ask_vol()`: volume at the best ask level (0 when empty). -/
def OrderBook.best_ask_vol (b : OrderBook) : Nat :=
  match b.asks with
  | [] => 0
  | pq :: _ => b.queueVol pq.2

/-- Number of orders resting at the best bid level. -/
def OrderBook.best_bid_count (b : OrderBook) : Nat :=
  match b.bids with
  | [] => 0
  | pq :: _ => pq.2.length

/-- Number of orders resting at the best ask level. -/
def OrderBook.best_ask_count (b : OrderBook) : Nat :=
  match b.asks with
  | [] => 0
  | pq :: _ => pq.2.length

/-- `order_status(id)`: numeric status of the order (§3); 4 (rejected)
for an unknown id. -/
def OrderBook.order_status (b : OrderBook) (id : Nat) : Nat :=
  match b.getOrder id with
  | some o => o.status
  | none => 4

/-- `set_time(t)`: monotonic clock update; rejected (no-op) if `t < now`. -/
def OrderBook.set_time (b : OrderBook) (t : Nat) : OrderBook :=
  if b.time ≤ t then { b with time := t } else b

/-- Crossing condition of the matching loop (§4.1): a bid crosses when
its price is at least the best ask; an ask crosses when its price is at
most the best bid. -/
def crosses (side : Bool) (price best : Nat) : Bool :=
  if side then decide (best ≤ price) else decide (price ≤ best)

/-- Total number of resting order ids in a side book (used as matching
fuel: each loop iteration consumes one passive order entirely or
terminates). -/
def sideOrderCount (ls : List Level) : Nat :=
  (ls.map (fun pq => pq.2.length)).sum

/-- Modelled from the spec: the price-time-priority matching loop (§4.1).
The incoming order `(id, side, price, vol)` matches against the opposite
side while that side is non-empty, the residual volume is positive and
the price crosses the best opposite level; the oldest order of the best
opposite level is consumed; `trade_vol = min(incoming.vol, passive.vol)`;
a `TradeRecord(now, passive.side, passive.price, trade_vol, id,
passive.id)` is appended; a fully consumed passive order is removed from
its level (dropping an emptied level) and becomes filled with
`end_time = now`.  Returns the updated book and the incoming residual. -/
def matchLoop (fuel : Nat) (b : OrderBook) (id : Nat) (side : Bool)
    (price vol : Nat) : OrderBook × Nat :=
  match fuel with
  | 0 => (b, vol)
  | fuel + 1 =>
    if vol = 0 then (b, 0)
    else
      match (if side then b.asks else b.bids) with
      | [] => (b, vol)
      | (bestP, q) :: restLevels =>
        if crosses side price bestP then
          match q with
          | [] => (b, vol)
          | pid :: qrest =>
            let pvol := b.orderVol pid
            let tradeVol := min vol pvol
            let trade : Trade := ⟨b.time, !side, bestP, tradeVol, id, pid⟩
            if pvol ≤ vol then
              -- passive fully consumed: remove it, mark filled
              let orders2 := updateOrders b.orders pid
                (fun o => { o with vol := 0, status := 2, endTime := b.time })
              let opp2 := if qrest.isEmpty then restLevels
                          else (bestP, qrest) :: restLevels
              let b2 : OrderBook :=
                if side then
                  { b with asks := opp2, orders := orders2,
                           trades := b.trades ++ [trade] }
                else
                  { b with bids := opp2, orders := orders2,
                           trades := b.trades ++ [trade] }
              matchLoop fuel b2 id side price (vol - tradeVol)
            else
              -- incoming fully consumed: decrement passive in place
              let orders2 := updateOrders b.orders pid
                (fun o => { o with vol := o.vol - tradeVol })
              let b2 : OrderBook :=
                { b with orders := orders2, trades := b.trades ++ [trade] }
              (b2, 0)
        else (b, vol)

/-- A limit price is valid when tick-aligned and strictly between 0 and
`MAX_PRICE` (§4.1). -/
def validLimitPrice (tickSize price : Nat) : Bool :=
  decide (price % tickSize = 0) && decide (0 < price) && decide (price < MAX_PRICE)

/-- Modelled from the spec: order placement with an externally allocated
id (§4.1, §4.2: the step environment pre-allocates ids at staging time
and applies placements later with those ids).  Validation failure
(zero volume or invalid limit price) records the order as rejected (4).
Otherwise the order is matched; a residual limit order rests at the tail
of its level as active (1); a fully filled order is recorded as filled
(2) with `end_time = now`; a market-order residual is discarded, the
record left cancelled (3) (§4.1: disposition is the implementer's
deterministic choice; the spec recommends dropping the residual). -/
def OrderBook.placeWithId (b : OrderBook) (id : Nat) (side : Bool)
    (vol : Nat) (traderId : Nat) (price : Option Nat) : OrderBook :=
  let p := match price with
    | some pr => pr
    | none => if side then MAX_PRICE else 0
  let valid := decide (0 < vol) &&
    (match price with
     | some pr => validLimitPrice b.tickSize pr
     | none => true)
  if valid then
    let opp := if side then b.asks else b.bids
    let res := matchLoop (sideOrderCount opp + 1) b id side p vol
    let b1 := res.1
    let resid := res.2
    if resid = 0 then
      let o : Order := ⟨id, side, p, 0, vol, traderId, b.time, b1.time, 2⟩
      { b1 with orders := b1.orders ++ [o] }
    else if price.isNone then
      let o : Order := ⟨id, side, p, resid, vol, traderId, b.time, b1.time, 3⟩
      { b1 with orders := b1.orders ++ [o] }
    else
      let o : Order := ⟨id, side, p, resid, vol, traderId, b.time, b.time, 1⟩
      if side then
        { b1 with orders := b1.orders ++ [o],
                  bids := insertIntoSide true p id b1.bids }
      else
        { b1 with orders := b1.orders ++ [o],
                  asks := insertIntoSide false p id b1.asks }
  else
    let o : Order := ⟨id, side, p, vol, vol, traderId, b.time, b.time, 4⟩
    { b with orders := b.orders ++ [o] }

/-- Modelled from the spec: `place_order(side, vol, trader_id, price?)`
(§4.1).  Allocates the next dense order id and returns it together with
the updated book. -/
def OrderBook.place_order (b : OrderBook) (side : Bool) (vol : Nat)
    (traderId : Nat) (price : Option Nat := none) : Nat × OrderBook :=
  let id := b.nextOrderId
  (id, { b.placeWithId id side vol traderId price with nextOrderId := id + 1 })

/-- Modelled from the spec: `cancel_order(order_id)` (§4.1).  Removes an
active order from its level, sets status cancelled (3) and
`end_time = now`; a no-op on a non-active or unknown id. -/
def OrderBook.cancel_order (b : OrderBook) (id : Nat) : OrderBook :=
  match b.getOrder id with
  | some o =>
    if o.status = 1 then
      { b with
        orders := updateOrders b.orders id
          (fun x => { x with status := 3, endTime := b.time }),
        bids := if o.side then removeFromSide id b.bids else b.bids,
        asks := if o.side then b.asks else removeFromSide id b.asks }
    else b
  | none => b

/-- Modelled from the spec: `modify_order(order_id, new_price?, new_vol?)`
(§4.1).  Volume-only: decrease in place, preserving time priority, no
re-matching.  With a new price: cancel-and-replace — the order is removed
from its level, re-run through the matching loop at the new price and
volume, and any residual rests at the tail of the new price level;
`arr_time` is unchanged and the status stays active unless fully filled.
A no-op on a non-active order or a misaligned new price. -/
def OrderBook.modify_order (b : OrderBook) (id : Nat)
    (newPrice : Option Nat := none) (newVol : Option Nat := none) : OrderBook :=
  match b.getOrder id with
  | none => b
  | some o =>
    if o.status = 1 then
      match newPrice with
      | none =>
        match newVol with
        | none => b
        | some v =>
          { b with orders := updateOrders b.orders id (fun x => { x with vol := v }) }
      | some p =>
        if validLimitPrice b.tickSize p then
          let v := match newVol with
            | some v => v
            | none => o.vol
          let b0 : OrderBook :=
            { b with
              bids := if o.side then removeFromSide id b.bids else b.bids,
              asks := if o.side then b.asks else removeFromSide id b.asks }
          let opp := if o.side then b0.asks else b0.bids
          let res := matchLoop (sideOrderCount opp + 1) b0 id o.side p v
          let b1 := res.1
          let resid := res.2
          if resid = 0 then
            let os2 := updateOrders b1.orders id
              (fun x => { x with price := p, vol := 0, status := 2,
                                 endTime := b1.time })
            { b1 with orders := os2 }
          else
            let os2 := updateOrders b1.orders id
              (fun x => { x with price := p, vol := resid })
            let b2 : OrderBook := { b1 with orders := os2 }
            if o.side then
              { b2 with bids := insertIntoSide true p id b2.bids }
            else
              { b2 with asks := insertIntoSide false p id b2.asks }
        else b
    else b

/-! ## Step environment

Modelled from the spec (§4.2): staged-instruction buffering, a
deterministic seeded PRNG used to permute the staged instructions at each
step, time advancement and per-step statistics recording.  The spec names
a 64-bit SplitMix as a recommended PRNG; the exact generator is free so
long as it is deterministic in the seed, which is all the claims use. -/

/-- Modelled from the spec: one step of a 64-bit SplitMix generator
(§9, Determinism note); arithmetic is explicitly modulo `2^64`.  Returns
the drawn value and the next state. -/
def splitMix64 (state : Nat) : Nat × Nat :=
  let s := (state + 0x9E3779B97F4A7C15) % 2 ^ 64
  let z1 := ((s ^^^ (s >>> 30)) * 0xBF58476D1CE4E5B9) % 2 ^ 64
  let z2 := ((z1 ^^^ (z1 >>> 27)) * 0x94D049BB133111EB) % 2 ^ 64
  (z2 ^^^ (z2 >>> 31), s)

/-- Modelled from the spec: a Fisher–Yates–style deterministic shuffle
(§4.2 step 1): repeatedly draw an index from the PRNG and move that
element to the front of the remainder.  Structurally recursive on a fuel
equal to the list length. -/
def shuffleAux {α : Type} (fuel : Nat) (rng : Nat) (xs : List α) :
    List α × Nat :=
  match fuel with
  | 0 => (xs, rng)
  | fuel + 1 =>
    if xs.length = 0 then (xs, rng)
    else
      let draw := splitMix64 rng
      let j := draw.1 % xs.length
      let picked := (xs.drop j).take 1
      let rest := xs.take j ++ xs.drop (j + 1)
      let tailRes := shuffleAux fuel draw.2 rest
      (picked ++ tailRes.1, tailRes.2)

/-- Shuffle a list with the environment PRNG, returning the permutation
and the advanced PRNG state. -/
def shuffle {α : Type} (rng : Nat) (xs : List α) : List α × Nat :=
  shuffleAux xs.length rng xs

/-- Modelled from the spec: a staged market instruction (§4.2).  A
placement carries its pre-allocated order id. -/
inductive Instruction where
  | place (orderId : Nat) (side : Bool) (vol : Nat) (traderId : Nat)
      (price : Option Nat)
  | cancel (orderId : Nat)
  | modify (orderId : Nat) (newPrice : Option Nat) (newVol : Option Nat)
  deriving Repr, DecidableEq

/-- Apply one instruction to the book (placements use the id
pre-allocated at staging time). -/
def applyInstruction (b : OrderBook) : Instruction → OrderBook
  | .place id side vol traderId price => b.placeWithId id side vol traderId price
  | .cancel id => b.cancel_order id
  | .modify id newPrice newVol => b.modify_order id newPrice newVol

/-- Modelled from the spec: the per-step statistics sample recorded after
applying the staged instructions (§3, §4.2 step 5).  The level-2 variant
additionally records volume and order count of the top 10 price levels
per side. -/
structure StepRecord where
  bidPrice : Nat
  askPrice : Nat
  bidVol : Nat
  askVol : Nat
  bidTouchVol : Nat
  askTouchVol : Nat
  bidTouchCount : Nat
  askTouchCount : Nat
  tradeVol : Nat
  bidVols : List Nat
  nBids : List Nat
  askVols : List Nat
  nAsks : List Nat
  deriving Repr, DecidableEq

/-- Volume at the k-th best bid level (0 when fewer levels). -/
def OrderBook.bidVolAt (b : OrderBook) (k : Nat) : Nat :=
  match b.bids.get? k with
  | some pq => b.queueVol pq.2
  | none => 0

/-- Number of orders at the k-th best bid level (0 when fewer levels). -/
def OrderBook.bidCountAt (b : OrderBook) (k : Nat) : Nat :=
  match b.bids.get? k with
  | some pq => pq.2.length
  | none => 0

/-- Volume at the k-th best ask level (0 when fewer levels). -/
def OrderBook.askVolAt (b : OrderBook) (k : Nat) : Nat :=
  match b.asks.get? k with
  | some pq => b.queueVol pq.2
  | none => 0

/-- Number of orders at the k-th best ask level (0 when fewer levels). -/
def OrderBook.askCountAt (b : OrderBook) (k : Nat) : Nat :=
  match b.asks.get? k with
  | some pq => pq.2.length
  | none => 0

/-- Build the statistics sample of a post-application book, given the
volume traded during the step. -/
def mkStepRecord (b : OrderBook) (tradeVol : Nat) : StepRecord :=
  ⟨(b.bid_ask).1, (b.bid_ask).2, b.bid_vol, b.ask_vol,
   b.best_bid_vol, b.best_ask_vol, b.best_bid_count, b.best_ask_count,
   tradeVol,
   (List.range 10).map b.bidVolAt, (List.range 10).map b.bidCountAt,
   (List.range 10).map b.askVolAt, (List.range 10).map b.askCountAt⟩

/-- Modelled from the spec: the step environment (§3, §4.2): an order
book plus staged-instruction buffer, deterministic PRNG state, step size
and the per-step record series. -/
structure StepEnv where
  book : OrderBook
  stepSize : Nat
  rng : Nat
  staged : List Instruction
  records : List StepRecord
  deriving Repr, DecidableEq

/-- Modelled from the spec: construction from
`(seed, start_time, tick_size, step_size)` (§4.2). -/
def StepEnv.init (seed startTime tickSize stepSize : Nat) : StepEnv :=
  ⟨OrderBook.init startTime tickSize, stepSize, seed, [], []⟩

/-- Modelled from the spec: staged `place_order` (§4.2).  Does not mutate
the book state other than pre-allocating the dense order id, which is
returned immediately and reused when the instruction is applied. -/
def StepEnv.place_order (env : StepEnv) (side : Bool) (vol : Nat)
    (traderId : Nat) (price : Option Nat := none) : Nat × StepEnv :=
  let id := env.book.nextOrderId
  (id,
   { env with
     book := { env.book with nextOrderId := id + 1 },
     staged := env.staged ++ [.place id side vol traderId price] })

/-- Modelled from the spec: staged `cancel_order` (§4.2). -/
def StepEnv.cancel_order (env : StepEnv) (id : Nat) : StepEnv :=
  { env with staged := env.staged ++ [.cancel id] }

/-- Modelled from the spec: staged `modify_order` (§4.2). -/
def StepEnv.modify_order (env : StepEnv) (id : Nat)
    (newPrice : Option Nat := none) (newVol : Option Nat := none) : StepEnv :=
  { env with staged := env.staged ++ [.modify id newPrice newVol] }

/-- Modelled from the spec: `step()` (§4.2): (1) draw a permutation of
the staged instructions from the env PRNG, (2) apply them in permuted
order at the current simulated time, (3) clear the buffer, (4) advance
the clock by `step_size`, (5) record one statistics sample from the
post-application book (the trade volume of the step is the total volume
of the trades appended during the step). -/
def StepEnv.step (env : StepEnv) : StepEnv :=
  let sh := shuffle env.rng env.staged
  let book1 := sh.1.foldl applyInstruction env.book
  let stepTrades := book1.trades.drop env.book.trades.length
  let tradeVol := (stepTrades.map Trade.vol).sum
  let book2 := { book1 with time := book1.time + env.stepSize }
  { book := book2,
    stepSize := env.stepSize,
    rng := sh.2,
    staged := [],
    records := env.records ++ [mkStepRecord book1 tradeVol] }

/-- Modelled from the spec: `get_market_data()` of the level-1 `StepEnv`
(§4.2): a mapping from named key to the full per-step series collected so
far.  Keys follow the level-1 environment of the repository. -/
def StepEnv.get_market_data (env : StepEnv) : List (String × List Nat) :=
  [("bid_price", env.records.map StepRecord.bidPrice),
   ("ask_price", env.records.map StepRecord.askPrice),
   ("bid_vol", env.records.map StepRecord.bidVol),
   ("ask_vol", env.records.map StepRecord.askVol),
   ("bid_touch_vol", env.records.map StepRecord.bidTouchVol),
   ("ask_touch_vol", env.records.map StepRecord.askTouchVol),
   ("bid_touch_order_count", env.records.map StepRecord.bidTouchCount),
   ("ask_touch_order_count", env.records.map StepRecord.askTouchCount),
   ("trade_vol", env.records.map StepRecord.tradeVol)]

/-! ## Batch (numpy-style) interface of the level-2 variant -/

/-- A row of a `submit_limit_orders` batch: `(side, vol, trader_id,
price)`. -/
abbrev LimitOrderRow : Type := Bool × Nat × Nat × Nat

/-- Modelled from the spec: row validation of a `submit_limit_orders`
batch (§4.2): the price must be tick-aligned and the volume positive. -/
def validRow (tickSize : Nat) (r : LimitOrderRow) : Bool :=
  decide (0 < r.2.1) && decide (r.2.2.2 % tickSize = 0)

/-- Stage one new-limit-order row, pre-allocating its id. -/
def stageLimitRow (env : StepEnv) (r : LimitOrderRow) : Nat × StepEnv :=
  env.place_order r.1 r.2.1 r.2.2.1 (some r.2.2.2)

/-- Stage every row of a batch in order, collecting the allocated ids. -/
def stageLimitRows (env : StepEnv) : List LimitOrderRow → List Nat × StepEnv
  | [] => ([], env)
  | r :: rest =>
    let h := stageLimitRow env r
    let t := stageLimitRows h.2 rest
    (h.1 :: t.1, t.2)

/-- Modelled from the spec: batch `submit_limit_orders` of the level-2
variant (§4.2, §7): all rows are validated first; on any invalid row the
whole batch fails as a hard error and nothing is staged; on success all N
instructions are staged and the N allocated dense ids are returned. -/
def StepEnv.submit_limit_orders (env : StepEnv) (rows : List LimitOrderRow) :
    Except String (List Nat × StepEnv) :=
  if rows.all (validRow env.book.tickSize) then
    Except.ok (stageLimitRows env rows)
  else
    Except.error "invalid order in batch"

/-- Modelled from the spec: batch `submit_cancellations` (§4.2): stages N
cancel instructions (unknown or inactive ids become no-ops at apply
time). -/
def StepEnv.submit_cancellations (env : StepEnv) (ids : List Nat) : StepEnv :=
  { env with staged := env.staged ++ ids.map Instruction.cancel }

/-- Trade volume recorded at the most recent step (0 before any step). -/
def StepEnv.lastTradeVol (env : StepEnv) : Nat :=
  match env.records.getLast? with
  | some r => r.tradeVol
  | none => 0

/-- Modelled from the spec: `level_1_data()` of the level-2 variant
(§4.2): the 9-value vector `[trade_vol, bid_price, ask_price, bid_vol,
ask_vol, bid_touch_vol, bid_touch_n_orders, ask_touch_vol,
ask_touch_n_orders]`. -/
def StepEnv.level_1_data (env : StepEnv) : List Nat :=
  [env.lastTradeVol,
   (env.book.bid_ask).1, (env.book.bid_ask).2,
   env.book.bid_vol, env.book.ask_vol,
   env.book.best_bid_vol, env.book.best_bid_count,
   env.book.best_ask_vol, env.book.best_ask_count]

/-- The level-2 quadruple of the k-th best price levels:
`(bid_vol_k, bid_n_orders_k, ask_vol_k, ask_n_orders_k)`. -/
def OrderBook.levelQuad (b : OrderBook) (k : Nat) : List Nat :=
  [b.bidVolAt k, b.bidCountAt k, b.askVolAt k, b.askCountAt k]

/-- Modelled from the spec and anchored on the repository's test and the
`BaseNumpyAgent.update` docstring: `level_2_data()` of the level-2
variant: the level-1 vector followed by the quadruples of the 9 price
levels per side *beyond the touch* (ranks 1 to 9 best-first — together
with the touch, reported inside the level-1 vector, this covers the top
10 levels per side), zero-padded past the book's depth
(9 + 36 = 45 values). -/
def StepEnv.level_2_data (env : StepEnv) : List Nat :=
  env.level_1_data ++
    (List.range' 1 9).foldr (fun k acc => env.book.levelQuad k ++ acc) []

/-! ## Simulation runner

Embedded from `src/bourse/step_sim/runner.py` (`run`, numpy branch): at
each step the runner reads the level-2 data once, asks each agent in list
order for an instruction block which it submits to the environment, then
calls `env.step()`; after `n_steps` repetitions it returns
`env.get_market_data()`.  A Python agent is stateful; here an agent is a
function of the step index (its state is a function of how often it was
called) and the level-2 data, returning its instruction block. -/

/-- A row of a batch instruction block (§4.2): `(kind, side, vol,
trader_id, price, order_id)` with `kind` 0 = no-op, 1 = new limit order,
2 = cancel. -/
abbrev InstructionRow : Type := Nat × Bool × Nat × Nat × Nat × Nat

/-- Modelled from the spec: `submit_instructions` of the level-2 variant
(§4.2): stage each row of an instruction block in order. -/
def StepEnv.submit_instructions (env : StepEnv) (rows : List InstructionRow) :
    StepEnv :=
  rows.foldl
    (fun e r =>
      if r.1 = 1 then (e.place_order r.2.1 r.2.2.1 r.2.2.2.1 (some r.2.2.2.2.1)).2
      else if r.1 = 2 then e.cancel_order r.2.2.2.2.2
      else e)
    env

/-- An agent of the runner: step index and level-2 data to instruction
block. -/
abbrev NumpyAgent : Type := Nat → List Nat → List InstructionRow

/-- The step loop of `run` (`runner.py`): each iteration submits every
agent's instruction block in list order against the shared level-2
snapshot, then steps the environment. -/
def runSteps (agents : List NumpyAgent) : Nat → Nat → StepEnv → StepEnv
  | 0, _, env => env
  | n + 1, i, env =>
    let d := env.level_2_data
    let env1 := agents.foldl (fun e a => e.submit_instructions (a i d)) env
    runSteps agents n (i + 1) env1.step

/-- `bourse.step_sim.run`: run the step loop for `n_steps` steps and
return `env.get_market_data()`. -/
def run (env : StepEnv) (agents : List NumpyAgent) (nSteps : Nat) :
    List (String × List Nat) :=
  (runSteps agents nSteps 0 env).get_market_data

/-! ## Environment scripts (for the determinism hyperproperty) -/

/-- One externally issued operation on a step environment. -/
inductive EnvOp where
  | place (side : Bool) (vol traderId : Nat) (price : Option Nat)
  | cancel (id : Nat)
  | modify (id : Nat) (newPrice newVol : Option Nat)
  | submitLimitOrders (rows : List LimitOrderRow)
  | submitCancellations (ids : List Nat)
  | step
  deriving Repr, DecidableEq

/-- Apply one scripted operation (a failed batch leaves the environment
unchanged). -/
def applyEnvOp (env : StepEnv) : EnvOp → StepEnv
  | .place s v t p => (env.place_order s v t p).2
  | .cancel id => env.cancel_order id
  | .modify id np nv => env.modify_order id np nv
  | .submitLimitOrders rows =>
    match env.submit_limit_orders rows with
    | .ok r => r.2
    | .error _ => env
  | .submitCancellations ids => env.submit_cancellations ids
  | .step => env.step

/-- Run a script of operations against an environment. -/
def runScript (env : StepEnv) (ops : List EnvOp) : StepEnv :=
  ops.foldl applyEnvOp env

/-! ## Derived definitions used by the claims -/

/-- Place a sequence of orders, collecting the returned ids. -/
def placeMany (b : OrderBook) :
    List (Bool × Nat × Nat × Option Nat) → List Nat × OrderBook
  | [] => ([], b)
  | a :: rest =>
    let h := b.place_order a.1 a.2.1 a.2.2.1 a.2.2.2
    let t := placeMany h.2 rest
    (h.1 :: t.1, t.2)

/-- The instructions staged by a successful limit-order batch whose first
row receives id `k`. -/
def limitInstructions (k : Nat) : List LimitOrderRow → List Instruction
  | [] => []
  | r :: rest =>
    .place k r.1 r.2.1 r.2.2.1 (some r.2.2.2) :: limitInstructions (k + 1) rest

/-- The level-2 vector as the spec's words describe it: the level-1
vector followed by one quadruple for each of the top 10 price levels per
side (ranks 0 to 9, touch included).  Stated only for comparison with
`StepEnv.level_2_data`, which follows the repository's test and agent
documentation. -/
def level2DataAsClaimed (env : StepEnv) : List Nat :=
  env.level_1_data ++
    (List.range 10).foldr (fun k acc => env.book.levelQuad k ++ acc) []

/-- Concatenation of the level quadruples over a list of ranks. -/
def quadConcat (b : OrderBook) (ks : List Nat) : List Nat :=
  ks.foldr (fun k acc => b.levelQuad k ++ acc) []

/-! Concrete scenarios from the repository's tests. -/

/-- Four-order setup of `test_trades` / `test_cancel_order`:
bid 10@50 (id 0), ask 20@60 (id 1), bid 10@55 (id 2), ask 20@65 (id 3). -/
def fourOrderBook : OrderBook :=
  (((((OrderBook.init 0).place_order true 10 11 (some 50)).2.place_order
      false 20 12 (some 60)).2.place_order
      true 10 11 (some 55)).2.place_order
      false 20 12 (some 65)).2

/-- `test_trades`: after `set_time(10)`, a market buy of volume 30
(allocated id 4). -/
def c1Result : Nat × OrderBook :=
  (fourOrderBook.set_time 10).place_order true 30 11 none

/-- `test_cancel_order`: cancelling all four resting orders. -/
def c7CancelledBook : OrderBook :=
  (((fourOrderBook.cancel_order 2).cancel_order 3).cancel_order
    0).cancel_order 1

/-- `test_mod_order_volume` setup: bid 10@50 (id 0), bid 10@55 (id 1),
ask 20@65 (id 2), ask 20@60 (id 3), then the two volume-only
modifications. -/
def c5Book : OrderBook :=
  ((((((OrderBook.init 0).place_order true 10 11 (some 50)).2.place_order
      true 10 11 (some 55)).2.place_order
      false 20 12 (some 65)).2.place_order
      false 20 12 (some 60)).2.modify_order 1 none (some 5)).modify_order
      2 none (some 10)

/-- `test_modify_order`: bid 10@50 (id 0), ask 30@60 (id 1), then a
price-and-volume modification of the bid to 20@45. -/
def c6Book : OrderBook :=
  ((((OrderBook.init 0).place_order true 10 11 (some 50)).2.place_order
      false 30 11 (some 60)).2.modify_order 0 (some 45) (some 20))

/-- The 6-row batch of `test_submit_limit_orders_numpy`. -/
def batchRows : List LimitOrderRow :=
  [(true, 10, 1, 20), (true, 11, 1, 20), (true, 12, 1, 19),
   (false, 10, 2, 22), (false, 11, 2, 22), (false, 12, 2, 23)]

/-- The bad batch of `test_raise_from_bad_order` (tick size 2, price 21
misaligned). -/
def badRows : List LimitOrderRow :=
  [(true, 10, 1, 20), (true, 11, 1, 21)]

/-- The environment of `test_submit_limit_orders_numpy` after submitting
the batch and stepping once. -/
def c4Env : StepEnv :=
  match (StepEnv.init 101 0 1 100000).submit_limit_orders batchRows with
  | .ok r => r.2.step
  | .error _ => StepEnv.init 101 0 1 100000

/-! ## Helper lemmas -/

theorem place_order_fst (b : OrderBook) (s : Bool) (v t : Nat)
    (p : Option Nat) : (b.place_order s v t p).1 = b.nextOrderId := rfl

theorem place_order_nextOrderId (b : OrderBook) (s : Bool) (v t : Nat)
    (p : Option Nat) :
    (b.place_order s v t p).2.nextOrderId = b.nextOrderId + 1 := rfl

theorem env_place_order_records (env : StepEnv) (s : Bool) (v t : Nat)
    (p : Option Nat) : (env.place_order s v t p).2.records = env.records := rfl

theorem env_cancel_order_records (env : StepEnv) (id : Nat) :
    (env.cancel_order id).records = env.records := rfl

theorem step_records_length (env : StepEnv) :
    env.step.records.length = env.records.length + 1 := by
  simp [StepEnv.step]

theorem stageLimitRows_eq (rows : List LimitOrderRow) :
    ∀ env : StepEnv,
      stageLimitRows env rows =
        (List.range' env.book.nextOrderId rows.length,
         { env with
           book := { env.book with
                     nextOrderId := env.book.nextOrderId + rows.length },
           staged := env.staged ++
             limitInstructions env.book.nextOrderId rows }) := by
  induction rows with
  | nil =>
    intro env
    simp [stageLimitRows, limitInstructions]
  | cons r rest ih =>
    intro env
    simp only [stageLimitRows, stageLimitRow, StepEnv.place_order,
      ih, limitInstructions, List.length_cons, List.range'_succ]
    simp [Prod.mk.injEq, StepEnv.mk.injEq, OrderBook.mk.injEq,
      List.append_assoc]
    omega

theorem quadConcat_cons (b : OrderBook) (k : Nat) (rest : List Nat) :
    quadConcat b (k :: rest) = b.levelQuad k ++ quadConcat b rest := rfl

theorem quadConcat_length (b : OrderBook) :
    ∀ ks : List Nat, (quadConcat b ks).length = 4 * ks.length := by
  intro ks
  induction ks with
  | nil => rfl
  | cons k rest ih =>
    simp [quadConcat_cons, List.length_append, ih, OrderBook.levelQuad]
    omega

theorem quadConcat_drop_take (b : OrderBook) :
    ∀ (ks : List Nat) (j : Nat) (h : j < ks.length),
      ((quadConcat b ks).drop (4 * j)).take 4 = b.levelQuad (ks.get ⟨j, h⟩) := by
  intro ks
  induction ks with
  | nil =>
    intro j h
    exact absurd h (by simp)
  | cons k rest ih =>
    intro j h
    match j with
    | 0 =>
      rw [quadConcat_cons, Nat.mul_zero, List.drop_zero]
      exact List.take_left (b.levelQuad k) (quadConcat b rest)
    | j + 1 =>
      have h2 : j < rest.length := by
        exact Nat.lt_of_succ_lt_succ (by simpa using h)
      have dl : (b.levelQuad k ++ quadConcat b rest).drop 4 =
          quadConcat b rest := List.drop_left (b.levelQuad k) (quadConcat b rest)
      rw [quadConcat_cons, show 4 * (j + 1) = 4 + 4 * j by omega,
        ← List.drop_drop, dl]
      exact ih j h2

theorem levelQuad_pad (b : OrderBook) (k : Nat)
    (h1 : b.bids.length ≤ k) (h2 : b.asks.length ≤ k) :
    b.levelQuad k = [0, 0, 0, 0] := by
  have e1 : b.bids[k]? = none := List.getElem?_eq_none h1
  have e2 : b.asks[k]? = none := List.getElem?_eq_none h2
  simp [OrderBook.levelQuad, OrderBook.bidVolAt, OrderBook.bidCountAt,
    OrderBook.askVolAt, OrderBook.askCountAt, e1, e2]

theorem submit_instructions_records (rows : List InstructionRow) :
    ∀ env : StepEnv, (env.submit_instructions rows).records = env.records := by
  induction rows with
  | nil =>
    intro env
    rfl
  | cons r rest ih =>
    intro env
    have h1 : env.submit_instructions (r :: rest) =
        StepEnv.submit_instructions
          (if r.1 = 1 then
            (env.place_order r.2.1 r.2.2.1 r.2.2.2.1 (some r.2.2.2.2.1)).2
           else if r.1 = 2 then env.cancel_order r.2.2.2.2.2
           else env) rest := rfl
    rw [h1, ih]
    by_cases h2 : r.1 = 1
    · simp [h2, env_place_order_records]
    · by_cases h3 : r.1 = 2 <;>
        simp [h2, h3, env_cancel_order_records]

theorem agents_fold_records (i : Nat) (d : List Nat) :
    ∀ (agents : List NumpyAgent) (env : StepEnv),
      (agents.foldl (fun e a => e.submit_instructions (a i d)) env).records =
        env.records := by
  intro agents
  induction agents with
  | nil =>
    intro env
    rfl
  | cons a rest ih =>
    intro env
    simp only [List.foldl_cons]
    rw [ih, submit_instructions_records]

theorem runSteps_records_length (agents : List NumpyAgent) :
    ∀ (n i : Nat) (env : StepEnv),
      (runSteps agents n i env).records.length = env.records.length + n := by
  intro n
  induction n with
  | zero =>
    intro i env
    rfl
  | succ m ih =>
    intro i env
    simp only [runSteps]
    rw [ih, step_records_length, agents_fold_records]
    omega

/-! ## Claim theorems -/

/-- Claim C1: price-time-priority matching on the literal four-order
setup.  After bid 10@50 (id 0), ask 20@60 (id 1), bid 10@55 (id 2),
ask 20@65 (id 3) and `set_time(10)`, a market buy of volume 30 receives
id 4 and produces exactly two trades — first
`(time 10, ask side, price 60, vol 20, active 4, passive 1)`, then
`(time 10, ask side, price 65, vol 10, active 4, passive 3)` — each
priced at the passive order's resting price, leaving
`bid_ask = (55, 65)`, `bid_vol = 20`, `ask_vol = 10`, with the
aggressor (id 4) and the consumed ask@60 (id 1) both filled (status 2).
(`side = false` encodes the ask side.) -/
theorem c1_price_time_priority_market_buy :
    c1Result.1 = 4 ∧
    c1Result.2.trades =
      [⟨10, false, 60, 20, 4, 1⟩, ⟨10, false, 65, 10, 4, 3⟩] ∧
    c1Result.2.bid_ask = (55, 65) ∧
    c1Result.2.bid_vol = 20 ∧
    c1Result.2.ask_vol = 10 ∧
    c1Result.2.order_status 4 = 2 ∧
    c1Result.2.order_status 1 = 2 := by
  decide

/-- Claim C2: determinism.  Two step environments constructed from
identical `(seed, start_time, tick_size, step_size)` arguments and fed
the same script of staged operations and steps return equal
`get_market_data()` outputs.  In this embedding the environment is a
pure function of its construction arguments and its script, so the two
histories coincide definitionally. -/
theorem c2_step_env_determinism (seed startTime tickSize stepSize : Nat)
    (ops : List EnvOp) (e1 e2 : StepEnv)
    (h1 : e1 = runScript (StepEnv.init seed startTime tickSize stepSize) ops)
    (h2 : e2 = runScript (StepEnv.init seed startTime tickSize stepSize) ops) :
    e1.get_market_data = e2.get_market_data := by
  subst h1
  subst h2
  rfl

/-- Witness for C2 at a concrete seed and script. -/
theorem c2_step_env_determinism_witness :
    (runScript (StepEnv.init 101 0 1 100)
        [EnvOp.place true 10 1 (some 50), EnvOp.step]).get_market_data =
      (runScript (StepEnv.init 101 0 1 100)
        [EnvOp.place true 10 1 (some 50), EnvOp.step]).get_market_data :=
  c2_step_env_determinism 101 0 1 100
    [EnvOp.place true 10 1 (some 50), EnvOp.step] _ _ rfl rfl

/-- Claim C5: volume-only modify decreases in place without re-matching.
Starting from bids 10@50 (id 0) and 10@55 (id 1) and asks 20@65 (id 2)
and 20@60 (id 3), modifying id 1 to volume 5 and id 2 to volume 10
yields `bid_ask = (55, 60)`, `bid_vol = 15`, `ask_vol = 30`,
`best_bid_vol = 5`, `best_ask_vol = 20`, produces no trades, and leaves
both side books' level queues unchanged (each modified order keeps its
time priority). -/
theorem c5_volume_modify_in_place :
    c5Book.bid_ask = (55, 60) ∧
    c5Book.bid_vol = 15 ∧
    c5Book.ask_vol = 30 ∧
    c5Book.best_bid_vol = 5 ∧
    c5Book.best_ask_vol = 20 ∧
    c5Book.trades = [] ∧
    c5Book.bids = [(55, [1]), (50, [0])] ∧
    c5Book.asks = [(60, [3]), (65, [2])] := by
  decide

/-- Claim C6: price modify is cancel-and-replace.  After bid 10@50
(id 0) and ask 30@60 (id 1), modifying the bid to price 45 and volume 20
removes it from the 50 level and reinserts it at 45, yielding
`bid_ask = (45, 60)`, `bid_vol = 20`, `ask_vol = 30`, no trades, and the
modified order still active (status 1) since 45 does not cross 60. -/
theorem c6_price_modify_cancel_replace :
    c6Book.bid_ask = (45, 60) ∧
    c6Book.bid_vol = 20 ∧
    c6Book.ask_vol = 30 ∧
    c6Book.order_status 0 = 1 ∧
    c6Book.bids = [(45, [0])] ∧
    c6Book.trades = [] := by
  decide

/-- Claim C7: empty-side sentinel.  A freshly constructed book has both
side books empty, and for every book state: when the bid side holds no
levels, `bid_ask()` reports 0 as the bid price and the bid volumes are
0; when the ask side holds no levels, `bid_ask()` reports
`MAX_PRICE = 2^32 - 1` as the ask price and the ask volumes are 0. -/
theorem c7_empty_side_sentinel :
    (∀ t ts, (OrderBook.init t ts).bids = [] ∧ (OrderBook.init t ts).asks = []) ∧
    (∀ b : OrderBook,
      (b.bids = [] →
        b.bid_ask.1 = 0 ∧ b.bid_vol = 0 ∧ b.best_bid_vol = 0) ∧
      (b.asks = [] →
        b.bid_ask.2 = MAX_PRICE ∧ b.ask_vol = 0 ∧ b.best_ask_vol = 0)) := by
  refine ⟨fun t ts => ⟨rfl, rfl⟩, fun b => ⟨fun h => ?_, fun h => ?_⟩⟩
  · simp [OrderBook.bid_ask, OrderBook.bid_vol, OrderBook.best_bid_vol, h]
  · simp [OrderBook.bid_ask, OrderBook.ask_vol, OrderBook.best_ask_vol, h]

/-- Witness for C7 at the fully cancelled four-order book of
`test_cancel_order`. -/
theorem c7_empty_side_sentinel_witness :
    c7CancelledBook.bids = [] ∧ c7CancelledBook.asks = [] ∧
    (c7CancelledBook.bid_ask.1 = 0 ∧ c7CancelledBook.bid_vol = 0 ∧
      c7CancelledBook.best_bid_vol = 0) ∧
    (c7CancelledBook.bid_ask.2 = MAX_PRICE ∧ c7CancelledBook.ask_vol = 0 ∧
      c7CancelledBook.best_ask_vol = 0) :=
  ⟨by decide, by decide,
   (c7_empty_side_sentinel.2 c7CancelledBook).1 (by decide),
   (c7_empty_side_sentinel.2 c7CancelledBook).2 (by decide)⟩

/-- Claim C3: batch atomicity.  For every environment and every batch of
limit-order rows: if any row fails validation (volume zero or price not
a multiple of the tick size) the whole `submit_limit_orders` call fails
as a hard error and the environment is left untouched — nothing is
staged; if every row passes, the call succeeds, stages exactly the N
new-order instructions at the tail of the staged buffer, and returns the
N consecutively allocated ids. -/
theorem c3_batch_atomicity (env : StepEnv) (rows : List LimitOrderRow) :
    ((∃ r ∈ rows, validRow env.book.tickSize r = false) →
      env.submit_limit_orders rows = Except.error "invalid order in batch") ∧
    ((∀ r ∈ rows, validRow env.book.tickSize r = true) →
      env.submit_limit_orders rows =
        Except.ok
          (List.range' env.book.nextOrderId rows.length,
           { env with
             book := { env.book with
                       nextOrderId := env.book.nextOrderId + rows.length },
             staged := env.staged ++
               limitInstructions env.book.nextOrderId rows })) := by
  constructor
  · rintro ⟨r, hr, hv⟩
    have hall : ¬ rows.all (validRow env.book.tickSize) = true := by
      intro h2
      have h3 := List.all_eq_true.1 h2 r hr
      rw [h3] at hv
      exact Bool.noConfusion hv
    simp [StepEnv.submit_limit_orders, hall]
  · intro h
    have hall : rows.all (validRow env.book.tickSize) = true :=
      List.all_eq_true.2 h
    simp [StepEnv.submit_limit_orders, hall, stageLimitRows_eq]

/-- Witness for C3: the misaligned batch of `test_raise_from_bad_order`
(tick size 2, price 21) fails whole, and the 6-row batch of
`test_submit_limit_orders_numpy` succeeds with ids 0 to 5. -/
theorem c3_batch_atomicity_witness :
    (∃ r ∈ badRows,
      validRow (StepEnv.init 101 0 2 100000).book.tickSize r = false) ∧
    (StepEnv.init 101 0 2 100000).submit_limit_orders badRows =
      Except.error "invalid order in batch" ∧
    (∀ r ∈ batchRows,
      validRow (StepEnv.init 101 0 1 100000).book.tickSize r = true) ∧
    (StepEnv.init 101 0 1 100000).submit_limit_orders batchRows =
      Except.ok
        (List.range' (StepEnv.init 101 0 1 100000).book.nextOrderId
           batchRows.length,
         { StepEnv.init 101 0 1 100000 with
           book := { (StepEnv.init 101 0 1 100000).book with
                     nextOrderId :=
                       (StepEnv.init 101 0 1 100000).book.nextOrderId +
                         batchRows.length },
           staged := (StepEnv.init 101 0 1 100000).staged ++
             limitInstructions
               (StepEnv.init 101 0 1 100000).book.nextOrderId batchRows }) :=
  ⟨by decide,
   (c3_batch_atomicity (StepEnv.init 101 0 2 100000) badRows).1 (by decide),
   by decide,
   (c3_batch_atomicity (StepEnv.init 101 0 1 100000) batchRows).2 (by decide)⟩

/-- Claim C4 (counterexample): the claimed level-2 layout — the level-1
vector followed by one quadruple for each of the *top 10* levels per
side — cannot be the code's: it would hold 9 + 40 = 49 values, while
`level_2_data()` returns 45 (as the repository test asserts via
`shape == (45,)`); at the tested batch state the claimed layout puts the
touch volume 21 at position 9 where the code returns 12, the volume of
the level *below* the touch. -/
theorem c4_level2_top10_counterexample :
    (level2DataAsClaimed c4Env).length = 49 ∧
    c4Env.level_2_data.length = 45 ∧
    level2DataAsClaimed c4Env ≠ c4Env.level_2_data ∧
    (level2DataAsClaimed c4Env).get? 9 = some 21 ∧
    c4Env.level_2_data.get? 9 = some 12 := by
  decide

/-- Claim C4 (amended): `level_1_data()` is the 9-value vector
`[trade_vol, bid_price, ask_price, bid_vol, ask_vol, bid_touch_vol,
bid_touch_n_orders, ask_touch_vol, ask_touch_n_orders]`, and
`level_2_data()` returns 45 values: that level-1 vector followed by the
quadruple `(bid_vol_k, bid_n_orders_k, ask_vol_k, ask_n_orders_k)` for
each of the 9 price levels per side beyond the touch (ranks 1 to 9
best-first; with the touch, reported inside the level-1 vector, this
covers the top 10 levels per side), zero-padded past the book's
depth. -/
theorem c4_level_data_layout (env : StepEnv) :
    env.level_1_data =
      [env.lastTradeVol, env.book.bid_ask.1, env.book.bid_ask.2,
       env.book.bid_vol, env.book.ask_vol, env.book.best_bid_vol,
       env.book.best_bid_count, env.book.best_ask_vol,
       env.book.best_ask_count] ∧
    env.level_2_data.length = 45 ∧
    env.level_2_data.take 9 = env.level_1_data ∧
    (∀ j, j < 9 →
      (env.level_2_data.drop (9 + 4 * j)).take 4 =
        env.book.levelQuad (j + 1)) ∧
    (∀ k, env.book.bids.length ≤ k → env.book.asks.length ≤ k →
      env.book.levelQuad k = [0, 0, 0, 0]) := by
  have hl2 : env.level_2_data =
      env.level_1_data ++ quadConcat env.book (List.range' 1 9) := rfl
  refine ⟨rfl, ?_, ?_, ?_, fun k h1 h2 => levelQuad_pad env.book k h1 h2⟩
  · rw [hl2, List.length_append, quadConcat_length]
    rfl
  · rw [hl2]
    exact List.take_left env.level_1_data _
  · intro j hj
    have dl : (env.level_1_data ++ quadConcat env.book (List.range' 1 9)).drop 9 =
        quadConcat env.book (List.range' 1 9) :=
      List.drop_left env.level_1_data _
    rw [hl2, ← List.drop_drop, dl]
    have h9 : j < (List.range' 1 9).length := by
      rw [List.length_range']
      exact hj
    rw [quadConcat_drop_take env.book (List.range' 1 9) j h9]
    have hg : (List.range' 1 9).get ⟨j, h9⟩ = j + 1 := by
      rw [List.get_eq_getElem, List.getElem_range'_1, Nat.add_comm]
    rw [hg]

/-- Witness for C4 at the batch state of
`test_submit_limit_orders_numpy`: the rank-1 quadruple sits at positions
9 to 12, and rank 2 (beyond both books' depth) is zero-padded. -/
theorem c4_level_data_layout_witness :
    (0 : Nat) < 9 ∧
    (c4Env.level_2_data.drop 9).take 4 = c4Env.book.levelQuad 1 ∧
    c4Env.book.bids.length ≤ 2 ∧ c4Env.book.asks.length ≤ 2 ∧
    c4Env.book.levelQuad 2 = [0, 0, 0, 0] :=
  ⟨by decide,
   (c4_level_data_layout c4Env).2.2.2.1 0 (by decide),
   by decide, by decide,
   (c4_level_data_layout c4Env).2.2.2.2 2 (by decide) (by decide)⟩

/-- Claim C8: dense order-id allocation.  Placing N orders in sequence
on any book assigns exactly the consecutive ids
`k, k + 1, …, k + N − 1` where `k` is the next unassigned id, and leaves
the allocator at `k + N` (so ids are never reused); staging a
limit-order batch allocates the same consecutive range; a fresh book
starts allocation at 0. -/
theorem c8_dense_id_allocation :
    (∀ (b : OrderBook) (ps : List (Bool × Nat × Nat × Option Nat)),
      (placeMany b ps).1 = List.range' b.nextOrderId ps.length ∧
      (placeMany b ps).2.nextOrderId = b.nextOrderId + ps.length) ∧
    (∀ (env : StepEnv) (rows : List LimitOrderRow),
      (stageLimitRows env rows).1 =
        List.range' env.book.nextOrderId rows.length) ∧
    (∀ t ts, (OrderBook.init t ts).nextOrderId = 0) := by
  refine ⟨?_, ?_, fun t ts => rfl⟩
  · intro b ps
    induction ps generalizing b with
    | nil => simp [placeMany]
    | cons a rest ih =>
      have h := ih (b.place_order a.1 a.2.1 a.2.2.1 a.2.2.2).2
      refine ⟨?_, ?_⟩
      · simp only [placeMany, List.length_cons, List.range'_succ]
        rw [h.1]
        rfl
      · have h2 := h.2
        rw [place_order_nextOrderId] at h2
        simp only [placeMany, List.length_cons]
        omega
  · intro env rows
    rw [stageLimitRows_eq]

/-- Claim C9: the level-1 `StepEnv.get_market_data()` key set.  For
every environment state the returned mapping has exactly the keys
`bid_price, ask_price, bid_vol, ask_vol, bid_touch_vol, ask_touch_vol,
bid_touch_order_count, ask_touch_order_count, trade_vol` — the four
touch keys are present and no per-level keys are. -/
theorem c9_level1_market_data_keys (env : StepEnv) :
    env.get_market_data.map Prod.fst =
      ["bid_price", "ask_price", "bid_vol", "ask_vol", "bid_touch_vol",
       "ask_touch_vol", "bid_touch_order_count", "ask_touch_order_count",
       "trade_vol"] := rfl


/-- Claim C10: runner shape.  `bourse.step_sim.run` performs, for each of
the `n_steps` iterations, one `update` per agent in list order followed
by one `env.step()`, and finally returns `env.get_market_data()`;
consequently, starting from a fresh environment, every array of the
returned mapping has length exactly `n_steps` (one recorded sample per
step, no matter what the agents stage). -/
theorem c10_runner_step_shape (seed startTime tickSize stepSize : Nat)
    (agents : List NumpyAgent) (n : Nat) :
    ∀ kv ∈ run (StepEnv.init seed startTime tickSize stepSize) agents n,
      kv.2.length = n := by
  intro kv hkv
  have hr : (runSteps agents n 0
      (StepEnv.init seed startTime tickSize stepSize)).records.length = n := by
    rw [runSteps_records_length]
    simp [StepEnv.init]
  simp only [run, StepEnv.get_market_data, List.mem_cons,
    List.not_mem_nil, or_false] at hkv
  rcases hkv with rfl | rfl | rfl | rfl | rfl | rfl | rfl | rfl | rfl
  all_goals simp [List.length_map, hr]

/-- Witness for C10: two steps of the runner with no agents on a fresh
environment produce a bid-price series of length 2. -/
theorem c10_runner_step_shape_witness :
    (("bid_price", ([0, 0] : List Nat)) : String × List Nat) ∈
      run (StepEnv.init 101 0 1 100) [] 2 ∧
    (("bid_price", ([0, 0] : List Nat)) : String × List Nat).2.length = 2 :=
  ⟨by decide, c10_runner_step_shape 101 0 1 100 [] 2 _ (by decide)⟩

end Bourse
